import Mathlib

/-
Shallow embedding of the ctxdb connection pool (package ctxdb).

Connections (Go values of type *sql.DB produced by the pool's factory) are
modelled by natural-number identifiers.  Go errors are modelled by
`Option Err` (none = nil).  The nondeterministic outcome of each Go
`select` between a completion channel and `ctx.Done()` (or between the
semaphore channel and `ctx.Done()`) is an explicit input of type `Race`.
Results of the opaque blocking client calls (Exec/Scan/Commit/... errors,
factory failures, Close failures) are oracle parameters.  Every call of
`(*sql.DB).Close` on a connection is recorded in the `closeCalls` event
list of the pool state, so destruction counts are observable.
-/

/-- Error values of the ctxdb package and of the wrapped client.
`canceled` and `deadlineExceeded` are the two possible results of
`ctx.Err()`; `errClosed`, `errNilConn` come from the pool file;
`errNoRow`, `errNoDB`, `errNoSQLDB` are the Row.Scan validation errors;
`semOverflowRestore` is the ordinary error value built by
`restoreOrClose` (errors.New "sem overflow in restoreOrClose");
`clientErr n` stands for an arbitrary error of the underlying client. -/
inductive Err where
  | canceled
  | deadlineExceeded
  | errClosed
  | errNilConn
  | errNoRow
  | errNoDB
  | errNoSQLDB
  | semOverflowRestore
  | clientErr (n : Nat)
deriving DecidableEq

/-- Identifiers of the Go panics in the modelled code. `semOverflow5`
is the panic "sem overflow 5" in the deferred release of handleWithSQL. -/
inductive PanicId where
  | semOverflow5
deriving DecidableEq

/-- Outcome of a Go select racing a blocking step against ctx.Done():
`workFirst` means the step (semaphore receive, or the done channel of the
spawned goroutine) fired first, `cancelFirst` means ctx.Done() fired first. -/
inductive Race where
  | workFirst
  | cancelFirst
deriving DecidableEq

/-- The `conns chan *sql.DB` field of DB: either the field is nil
(`nilChan`, after Close has run) or it is a buffered channel holding the
listed connection ids, with a flag recording whether the channel itself
has been closed. -/
inductive ConnsChan where
  | nilChan
  | chan (buf : List Nat) (closed : Bool)
deriving DecidableEq

/-- State of one ctxdb.DB value.  `semAvail` is the number of tokens
currently buffered in the `sem` channel, `semCap` its capacity;
`connsCap` is the capacity of the `conns` channel; `factoryAlive`
records whether the `factory` field is still non-nil; `nextId` numbers
the connections the factory would create next; `closeCalls` is the list
of Close events on connections, in order (one entry per call). -/
structure PoolState where
  maxOpenConns : Int
  semAvail : Nat
  semCap : Nat
  conns : ConnsChan
  connsCap : Nat
  factoryAlive : Bool
  nextId : Nat
  closeCalls : List Nat
deriving DecidableEq

/-- The compile-time constant `maxOpenConns = 2` of ctxdb.go. -/
def maxOpenConnsGo : Nat := 2

/-- The DB value built by Open: sem and conns channels of capacity 2,
sem pre-filled with 2 tokens, empty idle buffer, live factory. -/
def openDB : PoolState :=
  { maxOpenConns := (maxOpenConnsGo : Int)
    semAvail := maxOpenConnsGo
    semCap := maxOpenConnsGo
    conns := ConnsChan.chan [] false
    connsCap := maxOpenConnsGo
    factoryAlive := true
    nextId := 0
    closeCalls := [] }

/-- Idle buffer contents of the pool (empty when the field is nil). -/
def bufferOf (s : PoolState) : List Nat :=
  match s.conns with
  | ConnsChan.nilChan => []
  | ConnsChan.chan buf _ => buf

/-- Record a call of conn.Close() on connection `c`. -/
def closeCall (c : Nat) (s : PoolState) : PoolState :=
  { s with closeCalls := s.closeCalls ++ [c] }

/-- Receive one token from the sem channel (only meaningful when a token
is available, i.e. when the `case <-db.sem` select arm can fire). -/
def semAcq (s : PoolState) : PoolState :=
  { s with semAvail := s.semAvail - 1 }

/-- Nonblocking send of a token into the sem channel, as in
`select { case db.sem <- struct{}{}: ... default: ... }`:
`some` if the channel had room, `none` if the send would block
(the default branch is taken). -/
def semSend (s : PoolState) : Option PoolState :=
  if s.semAvail < s.semCap then some { s with semAvail := s.semAvail + 1 } else none

/-- Result of getFromPool: a connection or an error. -/
inductive ConnRes where
  | got (c : Nat)
  | failed (e : Err)
deriving DecidableEq

/-- DB.getFromPool.  A nil conns field fails with ErrClosed; a receive
on the channel pops the first buffered connection (a drained closed
channel yields the zero value nil, hence ErrClosed); the default branch
calls the factory, which returns a fresh connection id or the oracle
error `fe`. -/
def getFromPool (fe : Option Err) (s : PoolState) : ConnRes × PoolState :=
  match s.conns with
  | ConnsChan.nilChan => (ConnRes.failed Err.errClosed, s)
  | ConnsChan.chan (c :: rest) closed =>
      (ConnRes.got c, { s with conns := ConnsChan.chan rest closed })
  | ConnsChan.chan [] true => (ConnRes.failed Err.errClosed, s)
  | ConnsChan.chan [] false =>
      match fe with
      | some e => (ConnRes.failed e, s)
      | none => (ConnRes.got s.nextId, { s with nextId := s.nextId + 1 })

/-- DB.put.  A nil connection is rejected with ErrNilConn; if the conns
field is nil the connection is closed and the Close result returned; a
nonblocking send pushes into the buffer when there is room, otherwise
the connection is closed and the Close result returned.  (put never
observes a closed channel: Close nils the field under the same mutex.) -/
def put (conn : Option Nat) (closeErr : Nat → Option Err) (s : PoolState) :
    Option Err × PoolState :=
  match conn with
  | none => (some Err.errNilConn, s)
  | some c =>
    match s.conns with
    | ConnsChan.nilChan => (closeErr c, closeCall c s)
    | ConnsChan.chan buf closed =>
        if buf.length < s.connsCap then
          (none, { s with conns := ConnsChan.chan (buf ++ [c]) closed })
        else
          (closeErr c, closeCall c s)

/-- The drain loop of DB.Close: close each remaining buffered connection
in order, stopping at the first Close error. -/
def drainClose (closeErr : Nat → Option Err) : List Nat → PoolState → Option Err × PoolState
  | [], s => (none, s)
  | c :: rest, s =>
    let s1 := closeCall c s
    match closeErr c with
    | some e => (some e, s1)
    | none => drainClose closeErr rest s1

/-- DB.Close.  Nils out the conns and factory fields under the mutex;
if conns was already nil returns ErrClosed, otherwise closes the channel
and drains it, closing every buffered connection. -/
def dbClose (closeErr : Nat → Option Err) (s : PoolState) : Option Err × PoolState :=
  match s.conns with
  | ConnsChan.nilChan =>
      (some Err.errClosed, { s with conns := ConnsChan.nilChan, factoryAlive := false })
  | ConnsChan.chan buf _ =>
      drainClose closeErr buf { s with conns := ConnsChan.nilChan, factoryAlive := false }

/-- DB.SetMaxOpenConns: overwrites the maxOpenConns field under the mutex. -/
def SetMaxOpenConns (i : Int) (s : PoolState) : PoolState :=
  { s with maxOpenConns := i }

example : getFromPool none openDB = (ConnRes.got 0, { openDB with nextId := 1 }) := by decide
example : (put (some 7) (fun _ => none) openDB).1 = none := by decide
example : (dbClose (fun _ => none) openDB).1 = none := by decide

/-- DB.handleWithGivenSQL: spawns the work `f` and races the done channel
against ctx.Done().  If cancellation wins, the connection is closed; a
Close failure is returned as is, otherwise ctx.Err() (`ctxErr`) is
returned.  If the work completes first, nil is returned and the caller
keeps the connection.  `closeErr c` is the oracle result of the Close
call on connection `c`. -/
def handleWithGivenSQL (race : Race) (ctxErr : Err) (closeErr : Nat → Option Err)
    (c : Nat) (s : PoolState) : Option Err × PoolState :=
  match race with
  | Race.workFirst => (none, s)
  | Race.cancelFirst =>
    let s1 := closeCall c s
    match closeErr c with
    | some e => (some e, s1)
    | none => (some ctxErr, s1)

/-- DB.restoreOrClose: nonblocking send of the sem token; if the sem
channel is full the ordinary error value "sem overflow in restoreOrClose"
is returned.  With the token restored, a nil incoming error puts the
connection back into the pool, otherwise the connection is closed
(idempotently) and the Close error takes precedence over the incoming
error. -/
def restoreOrClose (e : Option Err) (c : Nat) (closeErr : Nat → Option Err)
    (s : PoolState) : Option Err × PoolState :=
  match semSend s with
  | none => (some Err.semOverflowRestore, s)
  | some s1 =>
    match e with
    | none => put (some c) closeErr s1
    | some e0 =>
      let s2 := closeCall c s1
      match closeErr c with
      | some ce => (some ce, s2)
      | none => (some e0, s2)

/-- DB.processWithGivenSQL: run the work through handleWithGivenSQL on a
connection the caller already holds, then restoreOrClose with the
outcome. -/
def processWithGivenSQL (race : Race) (ctxErr : Err) (closeErr : Nat → Option Err)
    (c : Nat) (s : PoolState) : Option Err × PoolState :=
  match handleWithGivenSQL race ctxErr closeErr c s with
  | (e, s1) => restoreOrClose e c closeErr s1

/-- Result of handleWithSQL: the checked-out connection on success, an
error, or a Go panic. -/
inductive HRes where
  | ok (c : Nat) (s : PoolState)
  | fail (e : Err) (s : PoolState)
  | panicked (p : PanicId) (s : PoolState)
deriving DecidableEq

/-- DB.handleWithSQL: race the sem receive against ctx.Done()
(`semRace`); on a permit, get a connection from the pool and run the
work through handleWithGivenSQL (racing via `race`).  The deferred
function releases the sem token whenever an error is being returned,
panicking ("sem overflow 5") if the sem channel is full.  On success the
connection is returned and the caller owns the token and the connection. -/
def handleWithSQL (semRace race : Race) (ctxErr : Err) (fe : Option Err)
    (closeErr : Nat → Option Err) (s : PoolState) : HRes :=
  match semRace with
  | Race.cancelFirst => HRes.fail ctxErr s
  | Race.workFirst =>
    let s1 := semAcq s
    match getFromPool fe s1 with
    | (ConnRes.failed e, s2) =>
      match semSend s2 with
      | some s3 => HRes.fail e s3
      | none => HRes.panicked PanicId.semOverflow5 s2
    | (ConnRes.got c, s2) =>
      match handleWithGivenSQL race ctxErr closeErr c s2 with
      | (some e, s3) =>
        match semSend s3 with
        | some s4 => HRes.fail e s4
        | none => HRes.panicked PanicId.semOverflow5 s3
      | (none, s3) => HRes.ok c s3

/-- Result of process: success, error, or panic (no value payload). -/
inductive ERes where
  | ok (s : PoolState)
  | fail (e : Err) (s : PoolState)
  | panicked (p : PanicId) (s : PoolState)
deriving DecidableEq

/-- DB.process: handleWithSQL, then on success restoreOrClose nil to
return the connection and the sem token. -/
def process (semRace race : Race) (ctxErr : Err) (fe : Option Err)
    (closeErr : Nat → Option Err) (s : PoolState) : ERes :=
  match handleWithSQL semRace race ctxErr fe closeErr s with
  | HRes.fail e s1 => ERes.fail e s1
  | HRes.panicked p s1 => ERes.panicked p s1
  | HRes.ok c s1 =>
    match restoreOrClose none c closeErr s1 with
    | (none, s2) => ERes.ok s2
    | (some e, s2) => ERes.fail e s2

/-- The ctxdb.Row handle: the underlying *sql.Row (opaque id), the
checked-out connection, whether the db pointer is set, and the stored
error. -/
structure Row where
  row : Option Nat
  sqldb : Option Nat
  hasDB : Bool
  err : Option Err
deriving DecidableEq

/-- Result of QueryRow: the Row handle (QueryRow always returns a
non-nil Row) or a propagated panic. -/
inductive QRRes where
  | ok (r : Row) (s : PoolState)
  | panicked (p : PanicId) (s : PoolState)
deriving DecidableEq

/-- DB.QueryRow: run the client QueryRow call through handleWithSQL.
On error a Row carrying only the error is returned (row, sqldb and db
fields unset); on success the Row carries the result `rid`, the
connection and the db pointer, and errors are deferred to Scan. -/
def queryRow (semRace race : Race) (ctxErr : Err) (fe : Option Err)
    (closeErr : Nat → Option Err) (rid : Nat) (s : PoolState) : QRRes :=
  match handleWithSQL semRace race ctxErr fe closeErr s with
  | HRes.fail e s1 =>
      QRRes.ok { row := none, sqldb := none, hasDB := false, err := some e } s1
  | HRes.panicked p s1 => QRRes.panicked p s1
  | HRes.ok c s1 =>
      QRRes.ok { row := some rid, sqldb := some c, hasDB := true, err := none } s1

/-- Row.Scan: a stored error is returned at once; then the validation
checks errNoRow / errNoDB / errNoSQLDB; then the scan work runs through
processWithGivenSQL on the held connection.  When the work completes
first it has stored the client scan result (`scanErr`) into r.err, and
Scan returns the processWithGivenSQL error if any, else r.err.  When
cancellation wins, the goroutine is abandoned (r.err is not updated) and
the processWithGivenSQL error is returned. -/
def rowScan (r : Row) (race : Race) (ctxErr : Err) (closeErr : Nat → Option Err)
    (scanErr : Option Err) (s : PoolState) : Option Err × Row × PoolState :=
  match r.err with
  | some e => (some e, r, s)
  | none =>
    match r.row with
    | none => (some Err.errNoRow, r, s)
    | some _ =>
      if r.hasDB = false then (some Err.errNoDB, r, s)
      else
        match r.sqldb with
        | none => (some Err.errNoSQLDB, r, s)
        | some c =>
          match race with
          | Race.cancelFirst =>
            match processWithGivenSQL Race.cancelFirst ctxErr closeErr c s with
            | (some e0, s1) => (some e0, r, s1)
            | (none, s1) => (r.err, r, s1)
          | Race.workFirst =>
            let r1 : Row := { r with err := scanErr }
            match processWithGivenSQL Race.workFirst ctxErr closeErr c s with
            | (some e0, s1) => (some e0, r1, s1)
            | (none, s1) => (r1.err, r1, s1)

example :
    handleWithSQL Race.workFirst Race.workFirst Err.canceled none (fun _ => none) openDB
      = HRes.ok 0 { openDB with semAvail := 1, nextId := 1 } := by decide
example :
    process Race.workFirst Race.workFirst Err.canceled none (fun _ => none) openDB
      = ERes.ok { openDB with conns := ConnsChan.chan [0] false, nextId := 1 } := by decide
example :
    process Race.workFirst Race.cancelFirst Err.deadlineExceeded none (fun _ => none) openDB
      = ERes.fail Err.deadlineExceeded { openDB with nextId := 1, closeCalls := [0] } := by decide

/-- The ctxdb.Tx handle: its checked-out connection and the sticky
error field.  The opaque *sql.Tx and the mutex (calls are serialized)
carry no further state in the sequential model. -/
structure Tx where
  txConn : Nat
  stickyErr : Option Err
deriving DecidableEq

/-- A ctxdb.Stmt as far as the Tx methods build one: whether the
underlying *sql.Stmt field is set, and the stored error. -/
structure Stmt where
  hasStmt : Bool
  err : Option Err
deriving DecidableEq

/-- Tx.shutdown: roll back on the live client transaction
(oracle result `rollbackErr`) and hand that outcome to restoreOrClose
on the held connection. -/
def txShutdown (rollbackErr : Option Err) (c : Nat) (closeErr : Nat → Option Err)
    (s : PoolState) : Option Err × PoolState :=
  restoreOrClose rollbackErr c closeErr s

/-- Tx.Commit: sticky error short-circuits; otherwise the commit work
(client result `commitErr`) runs through processWithGivenSQL, whose
error is returned when non-nil, else the client commit result.  Commit
never writes the sticky error. -/
def txCommit (tx : Tx) (race : Race) (ctxErr : Err) (commitErr : Option Err)
    (closeErr : Nat → Option Err) (s : PoolState) : Option Err × Tx × PoolState :=
  match tx.stickyErr with
  | some e => (some e, tx, s)
  | none =>
    match processWithGivenSQL race ctxErr closeErr tx.txConn s with
    | (some e, s1) => (some e, tx, s1)
    | (none, s1) => (commitErr, tx, s1)

/-- Tx.Rollback: same shape as Commit with the client rollback result;
never writes the sticky error. -/
def txRollback (tx : Tx) (race : Race) (ctxErr : Err) (rollbackErr : Option Err)
    (closeErr : Nat → Option Err) (s : PoolState) : Option Err × Tx × PoolState :=
  match tx.stickyErr with
  | some e => (some e, tx, s)
  | none =>
    match processWithGivenSQL race ctxErr closeErr tx.txConn s with
    | (some e, s1) => (some e, tx, s1)
    | (none, s1) => (rollbackErr, tx, s1)

/-- Tx.Exec: sticky error short-circuits; if the work completes first
the client result (`execErr`) is returned without touching the sticky
error or the pool; if cancellation wins, shutdown runs and the sticky
error is latched to the shutdown error if any, else to ctx.Err(). -/
def txExec (tx : Tx) (race : Race) (ctxErr : Err) (execErr : Option Err)
    (rollbackErr : Option Err) (closeErr : Nat → Option Err) (s : PoolState) :
    Option Err × Tx × PoolState :=
  match tx.stickyErr with
  | some e => (some e, tx, s)
  | none =>
    match race with
    | Race.workFirst => (execErr, tx, s)
    | Race.cancelFirst =>
      match txShutdown rollbackErr tx.txConn closeErr s with
      | (some e, s1) => (some e, { tx with stickyErr := some e }, s1)
      | (none, s1) => (some ctxErr, { tx with stickyErr := some ctxErr }, s1)

/-- Tx.Query: same control flow as Tx.Exec; the *sql.Rows payload is
opaque and omitted, only the returned error is modelled
(`queryErr` is the client query result). -/
def txQuery (tx : Tx) (race : Race) (ctxErr : Err) (queryErr : Option Err)
    (rollbackErr : Option Err) (closeErr : Nat → Option Err) (s : PoolState) :
    Option Err × Tx × PoolState :=
  match tx.stickyErr with
  | some e => (some e, tx, s)
  | none =>
    match race with
    | Race.workFirst => (queryErr, tx, s)
    | Race.cancelFirst =>
      match txShutdown rollbackErr tx.txConn closeErr s with
      | (some e, s1) => (some e, { tx with stickyErr := some e }, s1)
      | (none, s1) => (some ctxErr, { tx with stickyErr := some ctxErr }, s1)

/-- Tx.Prepare: same control flow as Tx.Exec; on completion a Stmt
wrapping the prepared statement is returned together with the client
prepare result (`prepErr`). -/
def txPrepare (tx : Tx) (race : Race) (ctxErr : Err) (prepErr : Option Err)
    (rollbackErr : Option Err) (closeErr : Nat → Option Err) (s : PoolState) :
    Option Stmt × Option Err × Tx × PoolState :=
  match tx.stickyErr with
  | some e => (none, some e, tx, s)
  | none =>
    match race with
    | Race.workFirst => (some { hasStmt := true, err := none }, prepErr, tx, s)
    | Race.cancelFirst =>
      match txShutdown rollbackErr tx.txConn closeErr s with
      | (some e, s1) => (none, some e, { tx with stickyErr := some e }, s1)
      | (none, s1) => (none, some ctxErr, { tx with stickyErr := some ctxErr }, s1)

/-- Tx.QueryRow: sticky error yields a Row carrying that error; on
completion a Row with the result; on cancellation the sticky error is
latched to ctx.Err(), then shutdown runs and a shutdown error replaces
both the sticky error and the row error. -/
def txQueryRow (tx : Tx) (race : Race) (ctxErr : Err) (rollbackErr : Option Err)
    (closeErr : Nat → Option Err) (rid : Nat) (s : PoolState) : Row × Tx × PoolState :=
  match tx.stickyErr with
  | some e =>
      ({ row := none, sqldb := some tx.txConn, hasDB := true, err := some e }, tx, s)
  | none =>
    match race with
    | Race.workFirst =>
        ({ row := some rid, sqldb := some tx.txConn, hasDB := true, err := none }, tx, s)
    | Race.cancelFirst =>
      match txShutdown rollbackErr tx.txConn closeErr s with
      | (some e, s1) =>
          ({ row := none, sqldb := some tx.txConn, hasDB := true, err := some e },
           { tx with stickyErr := some e }, s1)
      | (none, s1) =>
          ({ row := none, sqldb := some tx.txConn, hasDB := true, err := some ctxErr },
           { tx with stickyErr := some ctxErr }, s1)

/-- Tx.Stmt: sticky error yields a Stmt carrying that error, otherwise
a Stmt wrapping tx.tx.Stmt(...); no pool access either way. -/
def txStmt (tx : Tx) (s : PoolState) : Stmt × Tx × PoolState :=
  match tx.stickyErr with
  | some e => ({ hasStmt := false, err := some e }, tx, s)
  | none => ({ hasStmt := true, err := none }, tx, s)

/-- Wellformedness of a pool state: available sem tokens fit the
capacity, the idle buffer has no duplicates, fits its capacity, and
holds only ids already handed out by the factory. -/
def WF (s : PoolState) : Prop :=
  s.semAvail ≤ s.semCap ∧ (bufferOf s).Nodup ∧
    (bufferOf s).length ≤ s.connsCap ∧ ∀ x ∈ bufferOf s, x < s.nextId

/-- Close oracle under which every Close call succeeds. -/
def cl0 : Nat → Option Err := fun _ => none

/-- A pool state with connection 9 idle in the buffer. -/
def sPop : PoolState := { openDB with conns := ConnsChan.chan [9] false, nextId := 10 }

/-- A pool state whose conns field has been nilled out by Close. -/
def sNil : PoolState := { openDB with conns := ConnsChan.nilChan }

/-- A pool state holding a drained, closed conns channel. -/
def sDrained : PoolState := { openDB with conns := ConnsChan.chan [] true }

/-- A pool state whose idle buffer is at capacity. -/
def sFullBuf : PoolState := { openDB with conns := ConnsChan.chan [4, 9] false, nextId := 10 }

/-- C4: a cancellation that wins the race against the semaphore receive
makes handleWithSQL fail with the context error and leave the pool state
untouched (no connection obtained, nothing destroyed); QueryRow in that
case returns a Row holding only the context error, and Scan on such a
Row returns that error at once, for every oracle and every pool state
(no client contact, no state change). -/
theorem c4_cancel_before_permit (race race2 : Race) (ctxErr ctxErr2 : Err)
    (fe : Option Err) (closeErr closeErr2 : Nat → Option Err) (rid : Nat)
    (scanErr : Option Err) (s s2 : PoolState) :
    handleWithSQL Race.cancelFirst race ctxErr fe closeErr s = HRes.fail ctxErr s
  ∧ queryRow Race.cancelFirst race ctxErr fe closeErr rid s
      = QRRes.ok { row := none, sqldb := none, hasDB := false, err := some ctxErr } s
  ∧ rowScan { row := none, sqldb := none, hasDB := false, err := some ctxErr }
      race2 ctxErr2 closeErr2 scanErr s2
      = (some ctxErr, { row := none, sqldb := none, hasDB := false, err := some ctxErr }, s2) :=
  ⟨rfl, rfl, rfl⟩

/-- C10: SetMaxOpenConns only overwrites the maxOpenConns field; the sem
channel contents and capacity, the idle-buffer capacity and the factory
are untouched, so after Open the admission bound stays the compile-time
constant 2 regardless of the argument. -/
theorem c10_setMaxOpenConns_frame (i n : Int) (s : PoolState) :
    SetMaxOpenConns i s = { s with maxOpenConns := i }
  ∧ (SetMaxOpenConns i s).semAvail = s.semAvail
  ∧ (SetMaxOpenConns i s).semCap = s.semCap
  ∧ (SetMaxOpenConns i s).conns = s.conns
  ∧ (SetMaxOpenConns i s).connsCap = s.connsCap
  ∧ (SetMaxOpenConns i s).factoryAlive = s.factoryAlive
  ∧ (SetMaxOpenConns i s).maxOpenConns = i
  ∧ maxOpenConnsGo = 2
  ∧ openDB.semCap = maxOpenConnsGo
  ∧ openDB.semAvail = maxOpenConnsGo
  ∧ openDB.connsCap = maxOpenConnsGo
  ∧ (SetMaxOpenConns n openDB).semCap = 2
  ∧ (SetMaxOpenConns n openDB).connsCap = 2
  ∧ (SetMaxOpenConns n openDB).factoryAlive = true :=
  ⟨rfl, rfl, rfl, rfl, rfl, rfl, rfl, rfl, rfl, rfl, rfl, rfl, rfl, rfl⟩

/-- C7: getFromPool pops the first idle connection when the buffer is
nonempty; with an empty open buffer it invokes the factory (fresh id on
success, the factory error on failure); with a nil conns field or a
drained closed channel it fails with ErrClosed. -/
theorem c7_getFromPool_cases (s1 s2 s3 s4 : PoolState) (fe : Option Err) (e0 : Err)
    (c : Nat) (rest : List Nat) (cl : Bool)
    (h1 : s1.conns = ConnsChan.chan (c :: rest) cl)
    (h2 : s2.conns = ConnsChan.chan [] false)
    (h3 : s3.conns = ConnsChan.nilChan)
    (h4 : s4.conns = ConnsChan.chan [] true) :
    getFromPool fe s1 = (ConnRes.got c, { s1 with conns := ConnsChan.chan rest cl })
  ∧ getFromPool none s2 = (ConnRes.got s2.nextId, { s2 with nextId := s2.nextId + 1 })
  ∧ getFromPool (some e0) s2 = (ConnRes.failed e0, s2)
  ∧ getFromPool fe s3 = (ConnRes.failed Err.errClosed, s3)
  ∧ getFromPool fe s4 = (ConnRes.failed Err.errClosed, s4) := by
  refine ⟨?_, ?_, ?_, ?_, ?_⟩ <;> simp [getFromPool, h1, h2, h3, h4]

/-- Witness for C7 at concrete pool states. -/
theorem c7_getFromPool_cases_witness :
    getFromPool none sPop = (ConnRes.got 9, { sPop with conns := ConnsChan.chan [] false })
  ∧ getFromPool none openDB = (ConnRes.got openDB.nextId, { openDB with nextId := openDB.nextId + 1 })
  ∧ getFromPool (some (Err.clientErr 1)) openDB = (ConnRes.failed (Err.clientErr 1), openDB)
  ∧ getFromPool none sNil = (ConnRes.failed Err.errClosed, sNil)
  ∧ getFromPool none sDrained = (ConnRes.failed Err.errClosed, sDrained) :=
  c7_getFromPool_cases sPop openDB sNil sDrained none (Err.clientErr 1) 9 [] false
    rfl rfl rfl rfl

/-- C6: put rejects a nil connection with ErrNilConn; a non-nil
connection handed to a closed pool or a full buffer is closed, and when
that Close succeeds put reports no error. -/
theorem c6_put_cases (s1 s2 : PoolState) (c : Nat) (closeErr : Nat → Option Err)
    (buf : List Nat) (cl : Bool)
    (h1 : s1.conns = ConnsChan.nilChan)
    (h2 : s2.conns = ConnsChan.chan buf cl)
    (hfull : s2.connsCap ≤ buf.length)
    (hce : closeErr c = none) :
    put none closeErr s1 = (some Err.errNilConn, s1)
  ∧ put (some c) closeErr s1 = (none, closeCall c s1)
  ∧ put (some c) closeErr s2 = (none, closeCall c s2) := by
  refine ⟨rfl, ?_, ?_⟩
  · simp [put, h1, hce]
  · simp [put, h2, hce, Nat.not_lt.mpr hfull]

/-- Witness for C6 at concrete pool states. -/
theorem c6_put_cases_witness :
    put none cl0 sNil = (some Err.errNilConn, sNil)
  ∧ put (some 7) cl0 sNil = (none, closeCall 7 sNil)
  ∧ put (some 7) cl0 sFullBuf = (none, closeCall 7 sFullBuf) :=
  c6_put_cases sNil sFullBuf 7 cl0 [4, 9] false rfl rfl (by decide) rfl

/-- drainClose with a Close oracle that always succeeds records one
Close event per drained connection and returns nil. -/
theorem drainClose_all_ok (closeErr : Nat → Option Err) (l : List Nat) (s : PoolState)
    (h : ∀ c ∈ l, closeErr c = none) :
    drainClose closeErr l s = (none, { s with closeCalls := s.closeCalls ++ l }) := by
  induction l generalizing s with
  | nil => simp [drainClose]
  | cons c rest ih =>
    have hc : closeErr c = none := h c (by simp)
    have hr : ∀ x ∈ rest, closeErr x = none := fun x hx => h x (by simp [hx])
    simp [drainClose, closeCall, hc, ih _ hr]

/-- C5: the first Close on an open pool nils the conns field and closes
every idle connection exactly once (one new Close event per buffered
connection); every further Close on the now-closed pool returns
ErrClosed and leaves the Close-event list unchanged, so no connection is
ever destroyed twice by Close. -/
theorem c5_close_idempotent (s : PoolState) (buf : List Nat) (cl : Bool)
    (closeErr : Nat → Option Err)
    (hb : s.conns = ConnsChan.chan buf cl) (hnd : buf.Nodup)
    (hok : ∀ c ∈ buf, closeErr c = none) :
    dbClose closeErr s
      = (none, { s with conns := ConnsChan.nilChan, factoryAlive := false,
                        closeCalls := s.closeCalls ++ buf })
  ∧ (∀ c ∈ buf, (s.closeCalls ++ buf).count c = s.closeCalls.count c + 1)
  ∧ dbClose closeErr { s with conns := ConnsChan.nilChan, factoryAlive := false,
                              closeCalls := s.closeCalls ++ buf }
      = (some Err.errClosed,
         { s with conns := ConnsChan.nilChan, factoryAlive := false,
                  closeCalls := s.closeCalls ++ buf }) := by
  refine ⟨?_, ?_, rfl⟩
  · simp [dbClose, hb, drainClose_all_ok closeErr buf _ hok]
  · intro c hc
    rw [List.count_append, List.count_eq_one_of_mem hnd hc]

/-- Close oracle under which every Close call fails with clientErr 7. -/
def ceFail7 : Nat → Option Err := fun _ => some (Err.clientErr 7)

/-- C3 counterexample: when cancellation wins and the Close of the
checked-out connection fails, handleWithGivenSQL returns only the Close
failure; the cancellation error (here DeadlineExceeded) is not reported
at all, contradicting the claim that cancellation still stands as the
primary reported failure. -/
theorem c3_counterexample :
    handleWithGivenSQL Race.cancelFirst Err.deadlineExceeded ceFail7 5 openDB
      = (some (Err.clientErr 7), closeCall 5 openDB)
  ∧ Err.clientErr 7 ≠ Err.deadlineExceeded
  ∧ Err.clientErr 7 ≠ Err.canceled :=
  ⟨rfl, by decide, by decide⟩

/-- C3 amended: when cancellation wins the race, the connection is
always closed, and the returned error is the Close failure when the
Close fails, else the cancellation error; a failed destroy replaces the
cancellation error rather than accompanying it. -/
theorem c3_amended_destroy_error_replaces_cancel (ctxErr : Err)
    (closeErr : Nat → Option Err) (c : Nat) (s : PoolState) :
    handleWithGivenSQL Race.cancelFirst ctxErr closeErr c s
      = (some ((closeErr c).getD ctxErr), closeCall c s) := by
  cases h : closeErr c <;> simp [handleWithGivenSQL, h]

/-- A corrupted pool state (semCap 0 but a sem token in flight) on which
the deferred release of handleWithSQL over-releases. -/
def sBroken : PoolState :=
  { maxOpenConns := 2, semAvail := 1, semCap := 0, conns := ConnsChan.nilChan,
    connsCap := 2, factoryAlive := true, nextId := 0, closeCalls := [] }

/-- C9 counterexample: releasing a sem token through restoreOrClose when
every permit is already available does not panic; it returns the
ordinary error value "sem overflow in restoreOrClose" and leaves the
state unchanged, contradicting the claim that every release path
surfaces over-release as a panic and never converts it into an ordinary
returned error. -/
theorem c9_counterexample :
    restoreOrClose none 3 cl0 openDB = (some Err.semOverflowRestore, openDB)
  ∧ openDB.semAvail = openDB.semCap := ⟨rfl, rfl⟩

/-- C9 amended: over-release panics ("sem overflow 5") on the deferred
release path inside handleWithSQL, but restoreOrClose converts
over-release into the ordinary returned error "sem overflow in
restoreOrClose" instead of panicking. -/
theorem c9_amended_overrelease (s t : PoolState) (e : Option Err) (c : Nat)
    (ce : Nat → Option Err) (fe : Option Err) (race : Race) (ctxErr : Err)
    (h1 : s.semCap ≤ s.semAvail) (h2 : t.conns = ConnsChan.nilChan)
    (h3 : t.semCap ≤ t.semAvail - 1) :
    restoreOrClose e c ce s = (some Err.semOverflowRestore, s)
  ∧ handleWithSQL Race.workFirst race ctxErr fe ce t
      = HRes.panicked PanicId.semOverflow5 (semAcq t) := by
  constructor
  · simp [restoreOrClose, semSend, Nat.not_lt.mpr h1]
  · simp [handleWithSQL, getFromPool, semAcq, h2, semSend, Nat.not_lt.mpr h3]

/-- Witness for the amended C9 at concrete states. -/
theorem c9_amended_overrelease_witness :
    restoreOrClose (some Err.canceled) 3 cl0 openDB = (some Err.semOverflowRestore, openDB)
  ∧ handleWithSQL Race.workFirst Race.workFirst Err.canceled none cl0 sBroken
      = HRes.panicked PanicId.semOverflow5 (semAcq sBroken) :=
  c9_amended_overrelease openDB sBroken (some Err.canceled) 3 cl0 none Race.workFirst
    Err.canceled (by decide) rfl (by decide)

/-- A transaction handle with no sticky error, holding connection 5. -/
def tx0 : Tx := { txConn := 5, stickyErr := none }

/-- Pool state while tx0 holds its connection: one sem token out. -/
def sOneOut : PoolState := { openDB with semAvail := 1, nextId := 6 }

/-- C2 counterexample: Tx.Exec whose work completes with a client error
returns that error but latches nothing (the handle is unchanged), and a
subsequent Commit on the same handle returns nil, not the earlier error,
and does access the connection (the pool state changes). -/
theorem c2_counterexample :
    txExec tx0 Race.workFirst Err.canceled (some (Err.clientErr 3)) none cl0 sOneOut
      = (some (Err.clientErr 3), tx0, sOneOut)
  ∧ (txCommit tx0 Race.workFirst Err.canceled none cl0 sOneOut).1 = none
  ∧ (txCommit tx0 Race.workFirst Err.canceled none cl0 sOneOut).2.2 ≠ sOneOut :=
  ⟨rfl, rfl, by decide⟩

/-- C2 amended: a transaction handle whose sticky error is set
short-circuits every operation (Commit, Rollback, Exec, Query, Prepare,
QueryRow, Stmt) to exactly that error with no connection or pool access;
the sticky error is latched exactly by the cancellation paths of Exec,
Query, Prepare and QueryRow, where the latched value equals the returned
(or row-stored) error; errors of operations whose work completed are
returned but never latched, and Commit and Rollback never latch under
either race outcome. -/
theorem c2_amended_sticky (tx tx2 : Tx) (e : Err) (race : Race) (ctxErr : Err)
    (commitErr rollbackErr execErr queryErr prepErr : Option Err)
    (closeErr : Nat → Option Err) (rid : Nat) (s : PoolState)
    (hst : tx.stickyErr = some e) (hfree : tx2.stickyErr = none) :
    txCommit tx race ctxErr commitErr closeErr s = (some e, tx, s)
  ∧ txRollback tx race ctxErr rollbackErr closeErr s = (some e, tx, s)
  ∧ txExec tx race ctxErr execErr rollbackErr closeErr s = (some e, tx, s)
  ∧ txQuery tx race ctxErr queryErr rollbackErr closeErr s = (some e, tx, s)
  ∧ txPrepare tx race ctxErr prepErr rollbackErr closeErr s = (none, some e, tx, s)
  ∧ txQueryRow tx race ctxErr rollbackErr closeErr rid s
      = ({ row := none, sqldb := some tx.txConn, hasDB := true, err := some e }, tx, s)
  ∧ txStmt tx s = ({ hasStmt := false, err := some e }, tx, s)
  ∧ (txExec tx2 Race.cancelFirst ctxErr execErr rollbackErr closeErr s).2.1.stickyErr
      = (txExec tx2 Race.cancelFirst ctxErr execErr rollbackErr closeErr s).1
  ∧ ((txExec tx2 Race.cancelFirst ctxErr execErr rollbackErr closeErr s).1).isSome = true
  ∧ (txQuery tx2 Race.cancelFirst ctxErr queryErr rollbackErr closeErr s).2.1.stickyErr
      = (txQuery tx2 Race.cancelFirst ctxErr queryErr rollbackErr closeErr s).1
  ∧ ((txQuery tx2 Race.cancelFirst ctxErr queryErr rollbackErr closeErr s).1).isSome = true
  ∧ (txPrepare tx2 Race.cancelFirst ctxErr prepErr rollbackErr closeErr s).2.2.1.stickyErr
      = (txPrepare tx2 Race.cancelFirst ctxErr prepErr rollbackErr closeErr s).2.1
  ∧ ((txPrepare tx2 Race.cancelFirst ctxErr prepErr rollbackErr closeErr s).2.1).isSome = true
  ∧ (txQueryRow tx2 Race.cancelFirst ctxErr rollbackErr closeErr rid s).2.1.stickyErr
      = (txQueryRow tx2 Race.cancelFirst ctxErr rollbackErr closeErr rid s).1.err
  ∧ ((txQueryRow tx2 Race.cancelFirst ctxErr rollbackErr closeErr rid s).1.err).isSome = true
  ∧ (txExec tx2 Race.workFirst ctxErr execErr rollbackErr closeErr s).2.1 = tx2
  ∧ (txQuery tx2 Race.workFirst ctxErr queryErr rollbackErr closeErr s).2.1 = tx2
  ∧ (txPrepare tx2 Race.workFirst ctxErr prepErr rollbackErr closeErr s).2.2.1 = tx2
  ∧ (txQueryRow tx2 Race.workFirst ctxErr rollbackErr closeErr rid s).2.1 = tx2
  ∧ (txCommit tx2 race ctxErr commitErr closeErr s).2.1 = tx2
  ∧ (txRollback tx2 race ctxErr rollbackErr closeErr s).2.1 = tx2 := by
  refine ⟨?_, ?_, ?_, ?_, ?_, ?_, ?_, ?_, ?_, ?_, ?_, ?_, ?_, ?_, ?_, ?_, ?_, ?_, ?_, ?_, ?_⟩
  · simp [txCommit, hst]
  · simp [txRollback, hst]
  · simp [txExec, hst]
  · simp [txQuery, hst]
  · simp [txPrepare, hst]
  · simp [txQueryRow, hst]
  · simp [txStmt, hst]
  · rcases h : txShutdown rollbackErr tx2.txConn closeErr s with ⟨e1, s1⟩
    cases e1 <;> simp [txExec, hfree, h]
  · rcases h : txShutdown rollbackErr tx2.txConn closeErr s with ⟨e1, s1⟩
    cases e1 <;> simp [txExec, hfree, h]
  · rcases h : txShutdown rollbackErr tx2.txConn closeErr s with ⟨e1, s1⟩
    cases e1 <;> simp [txQuery, hfree, h]
  · rcases h : txShutdown rollbackErr tx2.txConn closeErr s with ⟨e1, s1⟩
    cases e1 <;> simp [txQuery, hfree, h]
  · rcases h : txShutdown rollbackErr tx2.txConn closeErr s with ⟨e1, s1⟩
    cases e1 <;> simp [txPrepare, hfree, h]
  · rcases h : txShutdown rollbackErr tx2.txConn closeErr s with ⟨e1, s1⟩
    cases e1 <;> simp [txPrepare, hfree, h]
  · rcases h : txShutdown rollbackErr tx2.txConn closeErr s with ⟨e1, s1⟩
    cases e1 <;> simp [txQueryRow, hfree, h]
  · rcases h : txShutdown rollbackErr tx2.txConn closeErr s with ⟨e1, s1⟩
    cases e1 <;> simp [txQueryRow, hfree, h]
  · simp [txExec, hfree]
  · simp [txQuery, hfree]
  · simp [txPrepare, hfree]
  · simp [txQueryRow, hfree]
  · rcases h : processWithGivenSQL race ctxErr closeErr tx2.txConn s with ⟨e1, s1⟩
    cases e1 <;> simp [txCommit, hfree, h]
  · rcases h : processWithGivenSQL race ctxErr closeErr tx2.txConn s with ⟨e1, s1⟩
    cases e1 <;> simp [txRollback, hfree, h]

/-- A transaction handle with a latched sticky error. -/
def txStuck : Tx := { txConn := 5, stickyErr := some (Err.clientErr 2) }

/-- Witness for the amended C2 at concrete handles and state. -/
theorem c2_amended_sticky_witness :
    txCommit txStuck Race.workFirst Err.canceled none cl0 sOneOut
      = (some (Err.clientErr 2), txStuck, sOneOut)
  ∧ txRollback txStuck Race.workFirst Err.canceled none cl0 sOneOut
      = (some (Err.clientErr 2), txStuck, sOneOut)
  ∧ txExec txStuck Race.workFirst Err.canceled none none cl0 sOneOut
      = (some (Err.clientErr 2), txStuck, sOneOut)
  ∧ txQuery txStuck Race.workFirst Err.canceled none none cl0 sOneOut
      = (some (Err.clientErr 2), txStuck, sOneOut)
  ∧ txPrepare txStuck Race.workFirst Err.canceled none none cl0 sOneOut
      = (none, some (Err.clientErr 2), txStuck, sOneOut)
  ∧ txQueryRow txStuck Race.workFirst Err.canceled none cl0 0 sOneOut
      = ({ row := none, sqldb := some txStuck.txConn, hasDB := true,
           err := some (Err.clientErr 2) }, txStuck, sOneOut)
  ∧ txStmt txStuck sOneOut
      = ({ hasStmt := false, err := some (Err.clientErr 2) }, txStuck, sOneOut)
  ∧ (txExec tx0 Race.cancelFirst Err.canceled none none cl0 sOneOut).2.1.stickyErr
      = (txExec tx0 Race.cancelFirst Err.canceled none none cl0 sOneOut).1
  ∧ ((txExec tx0 Race.cancelFirst Err.canceled none none cl0 sOneOut).1).isSome = true
  ∧ (txQuery tx0 Race.cancelFirst Err.canceled none none cl0 sOneOut).2.1.stickyErr
      = (txQuery tx0 Race.cancelFirst Err.canceled none none cl0 sOneOut).1
  ∧ ((txQuery tx0 Race.cancelFirst Err.canceled none none cl0 sOneOut).1).isSome = true
  ∧ (txPrepare tx0 Race.cancelFirst Err.canceled none none cl0 sOneOut).2.2.1.stickyErr
      = (txPrepare tx0 Race.cancelFirst Err.canceled none none cl0 sOneOut).2.1
  ∧ ((txPrepare tx0 Race.cancelFirst Err.canceled none none cl0 sOneOut).2.1).isSome = true
  ∧ (txQueryRow tx0 Race.cancelFirst Err.canceled none cl0 0 sOneOut).2.1.stickyErr
      = (txQueryRow tx0 Race.cancelFirst Err.canceled none cl0 0 sOneOut).1.err
  ∧ ((txQueryRow tx0 Race.cancelFirst Err.canceled none cl0 0 sOneOut).1.err).isSome = true
  ∧ (txExec tx0 Race.workFirst Err.canceled none none cl0 sOneOut).2.1 = tx0
  ∧ (txQuery tx0 Race.workFirst Err.canceled none none cl0 sOneOut).2.1 = tx0
  ∧ (txPrepare tx0 Race.workFirst Err.canceled none none cl0 sOneOut).2.2.1 = tx0
  ∧ (txQueryRow tx0 Race.workFirst Err.canceled none cl0 0 sOneOut).2.1 = tx0
  ∧ (txCommit tx0 Race.workFirst Err.canceled none cl0 sOneOut).2.1 = tx0
  ∧ (txRollback tx0 Race.workFirst Err.canceled none cl0 sOneOut).2.1 = tx0 :=
  c2_amended_sticky txStuck tx0 (Err.clientErr 2) Race.workFirst Err.canceled
    none none none none none cl0 0 sOneOut rfl rfl

/-- A fully-populated Row handle as QueryRow builds it on success. -/
def r0 : Row := { row := some 0, sqldb := some 3, hasDB := true, err := none }

/-- Pool state while r0 holds connection 3: one sem token out. -/
def sA : PoolState := { openDB with semAvail := 1, nextId := 4 }

/-- Pool state after the first successful Scan on r0: token restored and
connection 3 back in the idle buffer. -/
def sB : PoolState := { openDB with conns := ConnsChan.chan [3] false, nextId := 4 }

/-- C8 counterexample: a first Scan on a live Row succeeds; a second
Scan on the same handle does not fail with errNoRow / errNoDB /
errNoSQLDB — it re-runs the release protocol and surfaces the ordinary
sem-overflow error instead. -/
theorem c8_counterexample :
    rowScan r0 Race.workFirst Err.canceled cl0 none sA = (none, r0, sB)
  ∧ rowScan r0 Race.workFirst Err.canceled cl0 none sB
      = (some Err.semOverflowRestore, r0, sB)
  ∧ Err.semOverflowRestore ≠ Err.errNoRow
  ∧ Err.semOverflowRestore ≠ Err.errNoDB
  ∧ Err.semOverflowRestore ≠ Err.errNoSQLDB := by
  refine ⟨by decide, by decide, by decide, by decide, by decide⟩

/-- C8 amended: Scan on a handle with a latched error returns that
error unchanged; Scan on a handle with no live row, no db pointer or no
connection fails with the distinct errors errNoRow, errNoDB, errNoSQLDB
respectively, touching nothing; but a second Scan on a fully-populated
handle is not detected: it re-enters the release protocol and, with all
permits already available, returns the ordinary sem-overflow error. -/
theorem c8_amended_scan_validation (r1 r2 r3 r4 r5 : Row) (e : Err)
    (rid3 rid4 rid5 cid : Nat) (race : Race) (ctxErr : Err)
    (ce : Nat → Option Err) (se : Option Err) (s s5 : PoolState)
    (h1 : r1.err = some e)
    (h2a : r2.err = none) (h2b : r2.row = none)
    (h3a : r3.err = none) (h3b : r3.row = some rid3) (h3c : r3.hasDB = false)
    (h4a : r4.err = none) (h4b : r4.row = some rid4) (h4c : r4.hasDB = true)
    (h4d : r4.sqldb = none)
    (h5a : r5.err = none) (h5b : r5.row = some rid5) (h5c : r5.hasDB = true)
    (h5d : r5.sqldb = some cid) (h5e : s5.semCap ≤ s5.semAvail) :
    rowScan r1 race ctxErr ce se s = (some e, r1, s)
  ∧ rowScan r2 race ctxErr ce se s = (some Err.errNoRow, r2, s)
  ∧ rowScan r3 race ctxErr ce se s = (some Err.errNoDB, r3, s)
  ∧ rowScan r4 race ctxErr ce se s = (some Err.errNoSQLDB, r4, s)
  ∧ rowScan r5 Race.workFirst ctxErr ce se s5
      = (some Err.semOverflowRestore, { r5 with err := se }, s5) := by
  refine ⟨?_, ?_, ?_, ?_, ?_⟩
  · simp [rowScan, h1]
  · simp [rowScan, h2a, h2b]
  · simp [rowScan, h3a, h3b, h3c]
  · simp [rowScan, h4a, h4b, h4c, h4d]
  · simp [rowScan, h5a, h5b, h5c, h5d, processWithGivenSQL, handleWithGivenSQL,
      restoreOrClose, semSend, Nat.not_lt.mpr h5e]

/-- Witness for the amended C8 at concrete Row handles. -/
theorem c8_amended_scan_validation_witness :
    rowScan { row := some 0, sqldb := some 3, hasDB := true, err := some (Err.clientErr 9) }
        Race.workFirst Err.canceled cl0 none sA
      = (some (Err.clientErr 9),
         { row := some 0, sqldb := some 3, hasDB := true, err := some (Err.clientErr 9) }, sA)
  ∧ rowScan { row := none, sqldb := none, hasDB := true, err := none }
        Race.workFirst Err.canceled cl0 none sA
      = (some Err.errNoRow, { row := none, sqldb := none, hasDB := true, err := none }, sA)
  ∧ rowScan { row := some 1, sqldb := none, hasDB := false, err := none }
        Race.workFirst Err.canceled cl0 none sA
      = (some Err.errNoDB, { row := some 1, sqldb := none, hasDB := false, err := none }, sA)
  ∧ rowScan { row := some 1, sqldb := none, hasDB := true, err := none }
        Race.workFirst Err.canceled cl0 none sA
      = (some Err.errNoSQLDB, { row := some 1, sqldb := none, hasDB := true, err := none }, sA)
  ∧ rowScan r0 Race.workFirst Err.canceled cl0 none sB
      = (some Err.semOverflowRestore, { r0 with err := none }, sB) :=
  c8_amended_scan_validation
    { row := some 0, sqldb := some 3, hasDB := true, err := some (Err.clientErr 9) }
    { row := none, sqldb := none, hasDB := true, err := none }
    { row := some 1, sqldb := none, hasDB := false, err := none }
    { row := some 1, sqldb := none, hasDB := true, err := none }
    r0 (Err.clientErr 9) 1 1 0 3 Race.workFirst Err.canceled cl0 none sA sB
    rfl rfl rfl rfl rfl rfl rfl rfl rfl rfl rfl rfl rfl rfl (by decide)

/-- Witness for C5 on a pool holding two idle connections. -/
theorem c5_close_idempotent_witness :
    dbClose cl0 sFullBuf
      = (none, { sFullBuf with conns := ConnsChan.nilChan, factoryAlive := false,
                               closeCalls := sFullBuf.closeCalls ++ [4, 9] })
  ∧ (∀ c ∈ [4, 9],
      (sFullBuf.closeCalls ++ [4, 9]).count c = sFullBuf.closeCalls.count c + 1)
  ∧ dbClose cl0 { sFullBuf with conns := ConnsChan.nilChan, factoryAlive := false,
                                closeCalls := sFullBuf.closeCalls ++ [4, 9] }
      = (some Err.errClosed,
         { sFullBuf with conns := ConnsChan.nilChan, factoryAlive := false,
                         closeCalls := sFullBuf.closeCalls ++ [4, 9] }) :=
  c5_close_idempotent sFullBuf [4, 9] false cl0 rfl (by decide) (by decide)

/-- C1: through the full execution path (sem acquire, pool checkout,
race, release), a cancellation that fires after connection `c` was
checked out always leads to `c` being closed and absent from the idle
buffer of the final state; when the work completes first the call
succeeds, `c` returns to the idle buffer (capacity permitting) and, when
the buffer is otherwise empty, the very next getFromPool hands `c` out
again. -/
theorem c1_executor_disposition (s : PoolState) (buf0 : List Nat) (ctxErr : Err)
    (fe fe2 : Option Err) (closeErr : Nat → Option Err) (c : Nat) (s2 : PoolState)
    (hwf : WF s) (hc : s.conns = ConnsChan.chan buf0 false) (hsem : 1 ≤ s.semAvail)
    (hget : getFromPool fe (semAcq s) = (ConnRes.got c, s2)) :
    (∃ e s3, process Race.workFirst Race.cancelFirst ctxErr fe closeErr s = ERes.fail e s3
        ∧ c ∈ s3.closeCalls ∧ c ∉ bufferOf s3)
  ∧ ((bufferOf s2).length < s.connsCap →
      ∃ s4, process Race.workFirst Race.workFirst ctxErr fe closeErr s = ERes.ok s4
        ∧ c ∈ bufferOf s4
        ∧ (bufferOf s2 = [] → (getFromPool fe2 s4).1 = ConnRes.got c)) := by
  obtain ⟨hle, hnd, hlen, hfresh⟩ := hwf
  have hlt : s.semAvail - 1 < s.semCap := by omega
  cases buf0 with
  | nil =>
    cases fe with
    | some e => simp [getFromPool, semAcq, hc] at hget
    | none =>
      simp only [getFromPool, semAcq, hc, Prod.mk.injEq, ConnRes.got.injEq] at hget
      obtain ⟨hc1, hs2⟩ := hget
      subst hc1
      constructor
      · cases hce : closeErr s.nextId with
        | none =>
          refine ⟨ctxErr,
            { s with semAvail := s.semAvail - 1 + 1, nextId := s.nextId + 1,
                     closeCalls := s.closeCalls ++ [s.nextId] }, ?_, ?_, ?_⟩
          · simp [process, handleWithSQL, getFromPool, semAcq, hc,
              handleWithGivenSQL, hce, semSend, hlt, closeCall]
          · simp
          · simp [bufferOf, hc]
        | some ce =>
          refine ⟨ce,
            { s with semAvail := s.semAvail - 1 + 1, nextId := s.nextId + 1,
                     closeCalls := s.closeCalls ++ [s.nextId] }, ?_, ?_, ?_⟩
          · simp [process, handleWithSQL, getFromPool, semAcq, hc,
              handleWithGivenSQL, hce, semSend, hlt, closeCall]
          · simp
          · simp [bufferOf, hc]
      · intro hroom
        simp only [← hs2, bufferOf, List.length_nil] at hroom
        refine ⟨{ s with semAvail := s.semAvail - 1 + 1,
                         conns := ConnsChan.chan [s.nextId] false,
                         nextId := s.nextId + 1 }, ?_, ?_, ?_⟩
        · simp [process, handleWithSQL, getFromPool, semAcq, hc,
            handleWithGivenSQL, restoreOrClose, semSend, hlt, put, hroom]
        · simp [bufferOf]
        · intro _
          simp [getFromPool]
  | cons c0 rest =>
    simp only [getFromPool, semAcq, hc, Prod.mk.injEq, ConnRes.got.injEq] at hget
    obtain ⟨hc1, hs2⟩ := hget
    rw [hc1] at hc
    have hcrest : c ∉ rest := (List.nodup_cons.mp (by simpa [bufferOf, hc] using hnd)).1
    constructor
    · cases hce : closeErr c with
      | none =>
        refine ⟨ctxErr,
          { s with semAvail := s.semAvail - 1 + 1, conns := ConnsChan.chan rest false,
                   closeCalls := s.closeCalls ++ [c] }, ?_, ?_, ?_⟩
        · simp [process, handleWithSQL, getFromPool, semAcq, hc,
            handleWithGivenSQL, hce, semSend, hlt, closeCall]
        · simp
        · simpa [bufferOf] using hcrest
      | some ce =>
        refine ⟨ce,
          { s with semAvail := s.semAvail - 1 + 1, conns := ConnsChan.chan rest false,
                   closeCalls := s.closeCalls ++ [c] }, ?_, ?_, ?_⟩
        · simp [process, handleWithSQL, getFromPool, semAcq, hc,
            handleWithGivenSQL, hce, semSend, hlt, closeCall]
        · simp
        · simpa [bufferOf] using hcrest
    · intro hroom
      have hroom' : rest.length < s.connsCap := by
        simpa [← hs2, bufferOf] using hroom
      refine ⟨{ s with semAvail := s.semAvail - 1 + 1,
                       conns := ConnsChan.chan (rest ++ [c]) false }, ?_, ?_, ?_⟩
      · simp [process, handleWithSQL, getFromPool, semAcq, hc,
          handleWithGivenSQL, restoreOrClose, semSend, hlt, put, hroom']
      · simp [bufferOf]
      · intro hrest
        have hre : rest = [] := by simpa [← hs2, bufferOf] using hrest
        subst hre
        simp [getFromPool]

/-- Witness for C1: a fresh pool, the factory hands out connection 0. -/
theorem c1_executor_disposition_witness :
    (∃ e s3, process Race.workFirst Race.cancelFirst Err.deadlineExceeded none cl0 openDB
        = ERes.fail e s3 ∧ 0 ∈ s3.closeCalls ∧ 0 ∉ bufferOf s3)
  ∧ ((bufferOf { openDB with semAvail := 1, nextId := 1 }).length < openDB.connsCap →
      ∃ s4, process Race.workFirst Race.workFirst Err.deadlineExceeded none cl0 openDB
          = ERes.ok s4
        ∧ 0 ∈ bufferOf s4
        ∧ (bufferOf { openDB with semAvail := 1, nextId := 1 } = []
            → (getFromPool none s4).1 = ConnRes.got 0)) :=
  c1_executor_disposition openDB [] Err.deadlineExceeded none none cl0 0
    { openDB with semAvail := 1, nextId := 1 } (by unfold WF bufferOf; decide) rfl
    (by decide) (by decide)
